import Mathlib

/-!
Shallow embedding of the boat-ride-app client (a React Native / web app for
route-based boating-condition scoring) and proofs about its pure helper
logic: haversine distance, route distance, score-to-color mapping, gradient
segment construction, the sampling-interval derivation in the score handler,
the authenticated-fetch wrapper, and the wind-direction table lookups.

JavaScript numbers are modelled as exact arithmetic: real numbers where the
source uses transcendental functions (Math.sin, Math.asin, Math.sqrt), and
rationals where the source uses only field operations, Math.max, Math.min,
Math.floor and Math.round, so the embedded functions stay computable there.
-/

namespace BoatRide

/-- Latitude/longitude pair, from the LatLon interface in src/types/index.ts. -/
structure LatLon where
  lat : ℝ
  lon : ℝ

/-- Earth radius in nautical miles, constant EARTH_RADIUS_NM in src/utils/geo.ts. -/
noncomputable def EARTH_RADIUS_NM : ℝ := 3440.065

/-- Nautical miles to statute miles, constant NM_TO_STATUTE in src/utils/geo.ts. -/
noncomputable def NM_TO_STATUTE : ℝ := 1.15078

/-- Degrees to radians, the local toRad helper inside haversineNm. -/
noncomputable def toRad (deg : ℝ) : ℝ := deg * Real.pi / 180

/-- Haversine distance between two points in nautical miles,
from haversineNm in src/utils/geo.ts (the local let bindings dLat, dLon,
sinLat, sinLon, h of the source are inlined). -/
noncomputable def haversineNm (a b : LatLon) : ℝ :=
  2 * EARTH_RADIUS_NM *
    Real.arcsin (Real.sqrt
      (Real.sin (toRad (b.lat - a.lat) / 2) * Real.sin (toRad (b.lat - a.lat) / 2) +
        Real.cos (toRad a.lat) * Real.cos (toRad b.lat) *
          Real.sin (toRad (b.lon - a.lon) / 2) * Real.sin (toRad (b.lon - a.lon) / 2)))

/-- Sum of haversineNm over consecutive points, the accumulation loop of
routeDistanceMiles in src/utils/geo.ts. -/
noncomputable def consecutiveNm : List LatLon → ℝ
  | a :: b :: rest => haversineNm a b + consecutiveNm (b :: rest)
  | _ => 0

/-- Total route distance in statute miles, from routeDistanceMiles in
src/utils/geo.ts. -/
noncomputable def routeDistanceMiles (points : List LatLon) : ℝ :=
  consecutiveNm points * NM_TO_STATUTE

theorem toRad_sub_neg (x y : ℝ) : toRad (x - y) = -(toRad (y - x)) := by
  unfold toRad; ring

theorem haversineNm_comm (a b : LatLon) : haversineNm a b = haversineNm b a := by
  unfold haversineNm
  have hs : ∀ x y : ℝ, Real.sin (toRad (x - y) / 2) = -Real.sin (toRad (y - x) / 2) := by
    intro x y
    rw [toRad_sub_neg x y]
    rw [show -toRad (y - x) / 2 = -(toRad (y - x) / 2) by ring, Real.sin_neg]
  rw [hs b.lat a.lat, hs b.lon a.lon]
  ring_nf

theorem haversineNm_self (a : LatLon) : haversineNm a a = 0 := by
  unfold haversineNm
  simp [toRad]

theorem haversineNm_nonneg (a b : LatLon) : 0 ≤ haversineNm a b := by
  unfold haversineNm
  have h1 : (0:ℝ) ≤ 2 * EARTH_RADIUS_NM := by unfold EARTH_RADIUS_NM; norm_num
  exact mul_nonneg h1 (Real.arcsin_nonneg.mpr (Real.sqrt_nonneg _))

/-- C4: haversineNm is symmetric, zero on equal points, and nonnegative. -/
theorem haversine_symm_spec (a b : LatLon) :
    haversineNm a b = haversineNm b a ∧ haversineNm a a = 0 ∧ 0 ≤ haversineNm a b :=
  ⟨haversineNm_comm a b, haversineNm_self a, haversineNm_nonneg a b⟩

theorem consecutiveNm_eq_zip_sum (points : List LatLon) :
    consecutiveNm points =
      ((points.zip points.tail).map fun p => haversineNm p.1 p.2).sum := by
  induction points with
  | nil => simp [consecutiveNm]
  | cons a tl ih =>
    cases tl with
    | nil => simp [consecutiveNm]
    | cons b rest =>
      rw [show consecutiveNm (a :: b :: rest) =
          haversineNm a b + consecutiveNm (b :: rest) from rfl]
      simp only [List.tail_cons, List.zip_cons_cons, List.map_cons, List.sum_cons]
      rw [ih]
      simp

/-- C6: routeDistanceMiles is 1.15078 times the sum of haversineNm over
consecutive pairs of points, and is 0 for routes of fewer than two points. -/
theorem routeDistanceMiles_spec (points : List LatLon) :
    routeDistanceMiles points =
      1.15078 * ((points.zip points.tail).map fun p => haversineNm p.1 p.2).sum ∧
    (points.length < 2 → routeDistanceMiles points = 0) := by
  constructor
  · rw [routeDistanceMiles, consecutiveNm_eq_zip_sum, NM_TO_STATUTE, mul_comm]
  · intro h
    match points, h with
    | [], _ => simp [routeDistanceMiles, consecutiveNm]
    | [a], _ => simp [routeDistanceMiles, consecutiveNm]

/-- Witness for C6 at a concrete one-point route. -/
theorem routeDistanceMiles_spec_witness :
    routeDistanceMiles [(⟨0, 0⟩ : LatLon)] = 0 :=
  (routeDistanceMiles_spec [(⟨0, 0⟩ : LatLon)]).2 (by simp)

/-- Clamped hue of a score: the value interpolated into the hsl template by
scoreToColor (identical in RouteMap.web.tsx, the native route map and the
score card component): clamp the score to the range 0 to 100, then scale it
so that 0 maps to hue 0 and 100 maps to hue 120. -/
def scoreHue (score : ℚ) : ℚ :=
  max 0 (min 100 score) / 100 * 120

/-- Map a score in the range 0 to 100 to a continuous color string, from
scoreToColor in src/components/RouteMap.web.tsx (the same function appears
verbatim in the native route map and the score card component). -/
def scoreToColor (score : ℚ) : String :=
  "hsl(" ++ toString (scoreHue score) ++ ", 85%, 48%)"

/-- C5: score 0 maps to red (hue 0), score 100 maps to green (hue 120), and
for scores between 0 and 100 the hue varies linearly as score / 100 * 120. -/
theorem scoreToColor_endpoints :
    scoreToColor 0 = "hsl(0, 85%, 48%)" ∧
    scoreToColor 100 = "hsl(120, 85%, 48%)" ∧
    ∀ s : ℚ, 0 ≤ s → s ≤ 100 → scoreHue s = s / 100 * 120 := by
  have e0 : scoreHue 0 = 0 := by
    rw [scoreHue, show min (100:ℚ) 0 = 0 from min_eq_right (by norm_num), max_self]
    norm_num
  have e100 : scoreHue 100 = 120 := by
    rw [scoreHue, min_self, show max (0:ℚ) 100 = 100 from max_eq_right (by norm_num)]
    norm_num
  refine ⟨by rw [scoreToColor, e0]; rfl, by rw [scoreToColor, e100]; rfl, ?_⟩
  intro s h0 h1
  rw [scoreHue, min_eq_right h1, max_eq_right h0]

/-- Witness for C5 at the concrete score 50. -/
theorem scoreToColor_endpoints_witness : scoreHue 50 = 50 / 100 * 120 :=
  scoreToColor_endpoints.2.2 50 (by norm_num) (by norm_num)

/-- C9: scoreToColor clamps out-of-range scores to the range 0 to 100, and
the hue component of the result always lies between 0 and 120. -/
theorem scoreToColor_clamps (s : ℚ) :
    scoreToColor s = scoreToColor (max 0 (min 100 s)) ∧
    0 ≤ scoreHue s ∧ scoreHue s ≤ 120 := by
  have hub : max 0 (min 100 s) ≤ 100 := max_le (by norm_num) (min_le_left _ _)
  have hlb : 0 ≤ max 0 (min 100 s) := le_max_left _ _
  have hidem : scoreHue (max 0 (min 100 s)) = scoreHue s := by
    rw [scoreHue, min_eq_right hub, max_eq_right hlb, scoreHue]
  refine ⟨?_, ?_, ?_⟩
  · rw [scoreToColor, scoreToColor, hidem]
  · rw [scoreHue]
    have := div_nonneg hlb (by norm_num : (0:ℚ) ≤ 100)
    nlinarith
  · rw [scoreHue]
    nlinarith

/-- Compass direction names, constant COMPASS_DIRS in the score card. -/
def COMPASS_DIRS : List String := ["N", "NE", "E", "SE", "S", "SW", "W", "NW"]

/-- Wind arrow glyphs, constant WIND_ARROWS in the score card (arrows point
in the direction the wind blows toward). -/
def WIND_ARROWS : List String := ["↓", "↙", "←", "↖", "↑", "↗", "→", "↘"]

/-- JavaScript array indexing with a possibly negative integer index: a
negative index reads a missing property and yields undefined. -/
def jsArrayGet (l : List String) (i : ℤ) : Option String :=
  if 0 ≤ i then l[i.toNat]? else none

/-- Compass name of a wind direction in degrees, from degToCompass in the
score card: index COMPASS_DIRS at Math.round(deg / 45) % 8. Math.round is
rounding half toward positive infinity and % is the JavaScript remainder,
which keeps the sign of the dividend (Int.tmod). -/
def degToCompass (deg : ℚ) : Option String :=
  jsArrayGet COMPASS_DIRS (Int.tmod (round (deg / 45)) 8)

/-- Arrow glyph of a wind direction in degrees, from degToArrow in the
score card. -/
def degToArrow (deg : ℚ) : Option String :=
  jsArrayGet WIND_ARROWS (Int.tmod (round (deg / 45)) 8)

/-- C10: for 0 ≤ deg ≤ 360 the table index round(deg / 45) tmod 8 lies
between 0 and 7, so degToCompass returns one of the eight compass strings
and degToArrow one of the eight arrow glyphs; nonnegativity of deg matters,
since at deg = -50 the index is negative and the lookup yields undefined. -/
theorem degTable_in_bounds (deg : ℚ) (h0 : 0 ≤ deg) (h1 : deg ≤ 360) :
    0 ≤ Int.tmod (round (deg / 45)) 8 ∧ Int.tmod (round (deg / 45)) 8 < 8 ∧
    (∃ s ∈ COMPASS_DIRS, degToCompass deg = some s) ∧
    (∃ s ∈ WIND_ARROWS, degToArrow deg = some s) ∧
    degToCompass (-50) = none := by
  have hneg : degToCompass (-50) = none := by
    have hr : round ((-50:ℚ) / 45) = -1 := by
      rw [round_eq, Int.floor_eq_iff]
      constructor <;> norm_num
    rw [degToCompass, hr]
    decide
  have hr0 : 0 ≤ round (deg / 45) := by
    rw [round_eq]
    exact Int.le_floor.mpr (by push_cast; linarith)
  have hr8 : round (deg / 45) ≤ 8 := by
    rw [round_eq]
    have h9 : ⌊deg / 45 + 1 / 2⌋ < 9 := Int.floor_lt.mpr (by push_cast; linarith)
    omega
  have hfour : 0 ≤ Int.tmod (round (deg / 45)) 8 ∧ Int.tmod (round (deg / 45)) 8 < 8 ∧
      (∃ s ∈ COMPASS_DIRS, jsArrayGet COMPASS_DIRS (Int.tmod (round (deg / 45)) 8) = some s) ∧
      (∃ s ∈ WIND_ARROWS, jsArrayGet WIND_ARROWS (Int.tmod (round (deg / 45)) 8) = some s) := by
    generalize round (deg / 45) = r at hr0 hr8 ⊢
    interval_cases r <;> exact ⟨by decide, by decide, by decide, by decide⟩
  exact ⟨hfour.1, hfour.2.1, hfour.2.2.1, hfour.2.2.2, hneg⟩

/-- Witness for C10 at the concrete direction 90 degrees. -/
theorem degTable_in_bounds_witness :
    0 ≤ Int.tmod (round ((90:ℚ) / 45)) 8 ∧ degToCompass 90 = some "E" := by
  obtain ⟨hpos, -, -, -, -⟩ := degTable_in_bounds 90 (by norm_num) (by norm_num)
  refine ⟨hpos, ?_⟩
  have hr : round ((90:ℚ) / 45) = 2 := by
    rw [round_eq, Int.floor_eq_iff]
    constructor <;> norm_num
  rw [degToCompass, hr]
  decide

/-- Per-point score returned by the backend, from the ScoreOut interface in
src/types/index.ts (the fields buildScoreSegments reads, plus the label). -/
structure ScoreOut where
  t_local : String
  lat : ℚ
  lon : ℚ
  score_0_100 : ℚ
  label : String
deriving DecidableEq

/-- Coordinate record pushed into segment coords by buildScoreSegments. -/
structure Coord where
  latitude : ℚ
  longitude : ℚ
deriving DecidableEq

/-- Colored polyline piece, from the Segment interface in the native route
map component. -/
structure Segment where
  coords : List Coord
  color : String
deriving DecidableEq

/-- Number of sub-segments per score pair, constant GRADIENT_STEPS in the
native route map component. -/
def GRADIENT_STEPS : ℕ := 8

/-- The eight interpolated sub-segments of one consecutive score pair, the
inner loop of buildScoreSegments. The local bindings t0 = step / STEPS,
t1 = (step + 1) / STEPS, tMid = (t0 + t1) / 2 and
scoreMid = a.score + (b.score - a.score) * tMid of the source are inlined. -/
def subSegments (a b : ScoreOut) : List Segment :=
  (List.range GRADIENT_STEPS).map fun (step : ℕ) =>
    { coords := [
        ⟨a.lat + (b.lat - a.lat) * ((step : ℚ) / (GRADIENT_STEPS : ℚ)),
          a.lon + (b.lon - a.lon) * ((step : ℚ) / (GRADIENT_STEPS : ℚ))⟩,
        ⟨a.lat + (b.lat - a.lat) * (((step : ℚ) + 1) / (GRADIENT_STEPS : ℚ)),
          a.lon + (b.lon - a.lon) * (((step : ℚ) + 1) / (GRADIENT_STEPS : ℚ))⟩],
      color := scoreToColor (a.score_0_100 + (b.score_0_100 - a.score_0_100) *
        (((step : ℚ) / (GRADIENT_STEPS : ℚ) + ((step : ℚ) + 1) / (GRADIENT_STEPS : ℚ)) / 2)) }

/-- The outer loop of buildScoreSegments: sub-segments of every consecutive
score pair, in order. -/
def buildSegs : List ScoreOut → List Segment
  | a :: b :: rest => subSegments a b ++ buildSegs (b :: rest)
  | _ => []

/-- Gradient rendering of a scored route, from buildScoreSegments in the
native route map component (the web route map inlines the same loop; the
unused points argument of the source is dropped). -/
def buildScoreSegments (scores : List ScoreOut) : List Segment :=
  if scores.length < 2 then [] else buildSegs scores

theorem subSegments_length (a b : ScoreOut) : (subSegments a b).length = 8 := by
  rw [subSegments, List.length_map, List.length_range]
  rfl

theorem buildSegs_length (l : List ScoreOut) :
    (buildSegs l).length = 8 * (l.length - 1) := by
  induction l with
  | nil => simp [buildSegs]
  | cons a tl ih =>
    cases tl with
    | nil => simp [buildSegs]
    | cons b rest =>
      rw [show buildSegs (a :: b :: rest) = subSegments a b ++ buildSegs (b :: rest) from rfl]
      rw [List.length_append, subSegments_length, ih]
      simp
      omega

theorem buildSegs_get (l : List ScoreOut) :
    ∀ i k, k < 8 → ∀ a b, l[i]? = some a → l[i + 1]? = some b →
      (buildSegs l)[8 * i + k]? = (subSegments a b)[k]? := by
  induction l with
  | nil => intro i k _ a b ha _; simp at ha
  | cons x tl ih =>
    intro i k hk a b ha hb
    cases tl with
    | nil =>
      rw [show (([x] : List ScoreOut)[i + 1]? = none) by simp] at hb
      exact absurd hb (by simp)
    | cons y rest =>
      rw [show buildSegs (x :: y :: rest) = subSegments x y ++ buildSegs (y :: rest) from rfl]
      cases i with
      | zero =>
        have hax : x = a := by simpa using ha
        have hby : y = b := by simpa using hb
        subst hax; subst hby
        rw [List.getElem?_append_left (by rw [subSegments_length]; simpa using hk)]
        simp
      | succ j =>
        have hge : (subSegments x y).length ≤ 8 * (j + 1) + k := by
          rw [subSegments_length]; omega
        rw [List.getElem?_append_right hge, subSegments_length,
          show 8 * (j + 1) + k - 8 = 8 * j + k by omega]
        exact ih j k hk a b (by simpa using ha) (by simpa using hb)

/-- C2: for fewer than two scores buildScoreSegments is empty; otherwise it
has 8 * (n - 1) sub-segments, and the k-th sub-segment of pair (i, i + 1)
interpolates the two score points at parameters k / 8 and (k + 1) / 8 and is
colored by scoreToColor of the score interpolated at (2k + 1) / 16. -/
theorem buildScoreSegments_spec (scores : List ScoreOut) :
    (scores.length < 2 → buildScoreSegments scores = []) ∧
    (2 ≤ scores.length →
      (buildScoreSegments scores).length = 8 * (scores.length - 1) ∧
      ∀ i k, i < scores.length - 1 → k < 8 → ∀ a b,
        scores[i]? = some a → scores[i + 1]? = some b →
        (buildScoreSegments scores)[8 * i + k]? = some
          { coords := [
              ⟨a.lat + (b.lat - a.lat) * ((k : ℚ) / 8),
                a.lon + (b.lon - a.lon) * ((k : ℚ) / 8)⟩,
              ⟨a.lat + (b.lat - a.lat) * (((k : ℚ) + 1) / 8),
                a.lon + (b.lon - a.lon) * (((k : ℚ) + 1) / 8)⟩],
            color := scoreToColor
              (a.score_0_100 + (b.score_0_100 - a.score_0_100) * ((2 * (k : ℚ) + 1) / 16)) }) := by
  constructor
  · intro h
    rw [buildScoreSegments, if_pos h]
  · intro h
    have hnotlt : ¬ scores.length < 2 := by omega
    rw [buildScoreSegments, if_neg hnotlt]
    refine ⟨buildSegs_length scores, ?_⟩
    intro i k hi hk a b ha hb
    rw [buildSegs_get scores i k hk a b ha hb]
    rw [subSegments]
    rw [List.getElem?_map, List.getElem?_range (show k < GRADIENT_STEPS from hk)]
    simp only [Option.map_some']
    have hG : (GRADIENT_STEPS : ℚ) = 8 := by norm_num [GRADIENT_STEPS]
    rw [hG]
    rw [show ((k : ℚ) / 8 + ((k : ℚ) + 1) / 8) / 2 = (2 * (k : ℚ) + 1) / 16 by ring]

/-- Witness for C2 on a concrete two-score list: the segment count and the
first interpolated sub-segment. -/
theorem buildScoreSegments_spec_witness :
    (buildScoreSegments
        [⟨"t0", 0, 0, 0, "ok"⟩, ⟨"t1", 1, 1, 100, "ok"⟩]).length = 8 := by
  have h := (buildScoreSegments_spec
    [⟨"t0", 0, 0, 0, "ok"⟩, ⟨"t1", 1, 1, 100, "ok"⟩]).2 (by simp)
  simpa using h.1

/-- Boat parameters sent to the backend, from the BoatProfile interface in
src/types/index.ts. -/
structure BoatProfile where
  name : String
  length_ft : ℝ
  beam_ft : ℝ
  draft_ft : ℝ
  comfort_bias : ℝ
  max_safe_wind_kt : ℝ
  max_safe_wave_ft : ℝ

/-- Body of the score-route request built by handleScore in
src/screens/MapScreen.tsx (the ScoreRouteRequest interface of
src/types/index.ts plus the water_type field the handler sends). -/
structure ScoreRouteRequest where
  route : List LatLon
  start_time : String
  end_time : String
  timezone : String
  sample_every_minutes : ℤ
  boat : Option BoatProfile
  provider : String
  water_type : String

/-- The map-screen view state touched by handleScore: route points, scores,
selected score index, feedback-prompt visibility and the loading flag. -/
structure MapState where
  points : List LatLon
  scores : List ScoreOut
  selectedScore : Option ℕ
  showFeedback : Bool
  loading : Bool

/-- A user-facing alert, as shown by the showAlert helper of MapScreen. -/
structure UserAlert where
  title : String
  message : String

/-- What handleScore has done by the time it dispatches (or refuses to
dispatch) the network request: the view state it leaves behind, the
score-route request it issues, if any, and the alert it shows, if any. -/
structure HandleScoreResult where
  state : MapState
  request : Option ScoreRouteRequest
  alert : Option UserAlert

/-- The synchronous prefix of handleScore in src/screens/MapScreen.tsx, up
to the point where the score-route request is handed to the network: the
three precondition checks with their alerts and early returns, the
duration and sampling-interval arithmetic, and the request construction.
Date formatting (the addHours helper) is kept abstract as addHoursFn, and
an empty startTime models a falsy startTime string. -/
noncomputable def handleScore (st : MapState) (startTime : String) (speedMph : ℝ)
    (tz : String) (currentBoat : Option BoatProfile) (waterType : String)
    (addHoursFn : String → ℝ → String) : HandleScoreResult :=
  if st.points.length < 2 then
    ⟨st, none, some ⟨"Need at least 2 points", "Tap the map to add route points."⟩⟩
  else if startTime = "" then
    ⟨st, none, some ⟨"Set departure", "Enter a departure time for the trip."⟩⟩
  else if speedMph ≤ 0 then
    ⟨st, none, some ⟨"Set speed", "Enter a speed greater than 0."⟩⟩
  else
    { state :=
        { st with
          scores := [],
          selectedScore := none,
          showFeedback := false,
          loading := true },
      request := some
        { route := st.points.map fun p => ⟨p.lat, p.lon⟩,
          start_time := startTime,
          end_time := addHoursFn startTime (routeDistanceMiles st.points / speedMph),
          timezone := tz,
          sample_every_minutes :=
            max 1 (min 60
              ⌊routeDistanceMiles st.points / speedMph * 60 / ((st.points.length - 1 : ℕ) : ℝ)⌋),
          boat := currentBoat,
          provider := "nws+ndbc+fetch+coops",
          water_type := waterType },
      alert := none }

/-- C1: when scoring proceeds (at least two points, a departure time and a
positive speed), the request carries sample_every_minutes equal to
max(1, min(60, floor(duration minutes / (n - 1)))) with the duration
derived from routeDistanceMiles and the speed, and that value always lies
between 1 and 60 inclusive. -/
theorem handleScore_sample_minutes (st : MapState) (startTime : String) (speedMph : ℝ)
    (tz : String) (currentBoat : Option BoatProfile) (waterType : String)
    (addHoursFn : String → ℝ → String)
    (h2 : 2 ≤ st.points.length) (hst : startTime ≠ "") (hv : 0 < speedMph) :
    (handleScore st startTime speedMph tz currentBoat waterType addHoursFn).request.map
        (fun r => r.sample_every_minutes) =
      some (max 1 (min 60
        ⌊routeDistanceMiles st.points / speedMph * 60 / ((st.points.length : ℝ) - 1)⌋)) ∧
    1 ≤ max 1 (min 60
        ⌊routeDistanceMiles st.points / speedMph * 60 / ((st.points.length : ℝ) - 1)⌋) ∧
    max 1 (min 60
        ⌊routeDistanceMiles st.points / speedMph * 60 / ((st.points.length : ℝ) - 1)⌋) ≤ 60 := by
  have hn : ¬ st.points.length < 2 := by omega
  have hv' : ¬ speedMph ≤ 0 := not_le.mpr hv
  have hcast : ((st.points.length - 1 : ℕ) : ℝ) = (st.points.length : ℝ) - 1 := by
    have h1 : 1 ≤ st.points.length := by omega
    push_cast [h1]
    ring
  refine ⟨?_, le_max_left _ _, max_le (by norm_num) (min_le_left _ _)⟩
  rw [handleScore, if_neg hn, if_neg hst, if_neg hv']
  simp only [Option.map_some']
  rw [hcast]

/-- Witness for C1 on a concrete degenerate two-point route at speed 1. -/
theorem handleScore_sample_minutes_witness :
    (handleScore ⟨[⟨0, 0⟩, ⟨0, 0⟩], [], none, false, false⟩ "2025-01-01 10:00" 1 "UTC"
        none "open" (fun s _ => s)).request.map (fun r => r.sample_every_minutes) =
      some (max 1 (min 60
        ⌊routeDistanceMiles [(⟨0, 0⟩ : LatLon), ⟨0, 0⟩] / 1 * 60 /
          ((([(⟨0, 0⟩ : LatLon), ⟨0, 0⟩].length : ℝ)) - 1)⌋)) := by
  have h := handleScore_sample_minutes ⟨[⟨0, 0⟩, ⟨0, 0⟩], [], none, false, false⟩
    "2025-01-01 10:00" 1 "UTC" none "open" (fun s _ => s)
    (by simp) (by simp) (by norm_num)
  exact h.1

/-- C8: when scoring is refused (fewer than two points, empty departure
time, or nonpositive speed) handleScore shows an alert, issues no request,
and leaves the view state unchanged. -/
theorem handleScore_precondition_atomic (st : MapState) (startTime : String)
    (speedMph : ℝ) (tz : String) (currentBoat : Option BoatProfile) (waterType : String)
    (addHoursFn : String → ℝ → String)
    (h : st.points.length < 2 ∨ startTime = "" ∨ speedMph ≤ 0) :
    (handleScore st startTime speedMph tz currentBoat waterType addHoursFn).state = st ∧
    (handleScore st startTime speedMph tz currentBoat waterType addHoursFn).request = none ∧
    (handleScore st startTime speedMph tz currentBoat waterType addHoursFn).alert.isSome = true := by
  rw [handleScore]
  split_ifs with h1 h2 h3
  · exact ⟨rfl, rfl, rfl⟩
  · exact ⟨rfl, rfl, rfl⟩
  · exact ⟨rfl, rfl, rfl⟩
  · rcases h with h | h | h
    · exact absurd h h1
    · exact absurd h h2
    · exact absurd h h3

/-- Witness for C8 on a concrete empty route. -/
theorem handleScore_precondition_atomic_witness :
    (handleScore ⟨[], [], none, false, false⟩ "2025-01-01 10:00" 1 "UTC" none "open"
        (fun s _ => s)).request = none := by
  have h := handleScore_precondition_atomic ⟨[], [], none, false, false⟩
    "2025-01-01 10:00" 1 "UTC" none "open" (fun s _ => s) (Or.inl (by simp))
  exact h.2.1

/-- Backend base URL, constant API_BASE in src/api/client.ts. -/
def API_BASE : String := "https://boat-ride-api.onrender.com"

/-- Supabase auth session as read by authFetch; the access_token field is
the bearer token, with the empty string standing for a falsy token. -/
structure Session where
  access_token : String

/-- Fetch options as used by the call sites of authFetch in
src/api/client.ts: HTTP method, optional JSON body, and extra headers (a
JavaScript object, modelled as an insertion-ordered association list). -/
structure RequestInit where
  method : String
  body : Option String
  headers : List (String × String)

/-- Outgoing HTTP request as assembled by authFetch. -/
structure HttpRequest where
  url : String
  method : String
  body : Option String
  headers : List (String × String)
deriving DecidableEq

/-- HTTP response as observed by authFetch: the ok flag, the numeric
status, and the body text. -/
structure HttpResponse where
  ok : Bool
  status : ℕ
  bodyText : String
deriving DecidableEq

/-- JavaScript object property assignment on an insertion-ordered
association list: overwrite the value of an existing key in place,
otherwise append the new key at the end. -/
def setHeader (hs : List (String × String)) (k v : String) : List (String × String) :=
  if hs.any (fun p => p.1 = k) then hs.map (fun p => if p.1 = k then (k, v) else p)
  else hs ++ [(k, v)]

/-- Header lookup, the value a fetch implementation reads for a name. -/
def lookupHeader (hs : List (String × String)) (k : String) : Option String :=
  (hs.find? (fun p => p.1 = k)).map (fun p => p.2)

/-- The header object built by authFetch: Content-Type first, then the
spread of options.headers (which can overwrite it), then the Authorization
assignment guarded by the truthiness of session?.access_token. -/
def buildHeaders (session : Option Session) (extra : List (String × String)) :
    List (String × String) :=
  let merged := extra.foldl (fun acc p => setHeader acc p.1 p.2)
    [("Content-Type", "application/json")]
  match session with
  | some s => if s.access_token ≠ "" then
      setHeader merged "Authorization" ("Bearer " ++ s.access_token)
    else merged
  | none => merged

/-- What one call of authFetch (src/api/client.ts) does, with the network
modelled as a function from requests to responses: the list of HTTP
requests it issues, in order, and either the response it returns or the
message of the Error it throws. -/
def authFetch (session : Option Session) (path : String) (options : RequestInit)
    (net : HttpRequest → HttpResponse) : List HttpRequest × Except String HttpResponse :=
  let req : HttpRequest :=
    ⟨API_BASE ++ path, options.method, options.body, buildHeaders session options.headers⟩
  let res := net req
  if !res.ok then
    ([req], Except.error ("API " ++ toString res.status ++ ": " ++ res.bodyText))
  else
    ([req], Except.ok res)

/-- C3: authFetch issues exactly one HTTP request; it throws exactly when
the response is not ok, with a message embedding the status code and the
body text, and otherwise returns the response unchanged. -/
theorem authFetch_spec (session : Option Session) (path : String)
    (options : RequestInit) (net : HttpRequest → HttpResponse) :
    ∃ req, (authFetch session path options net).1 = [req] ∧
      ((authFetch session path options net).2 =
          Except.error ("API " ++ toString (net req).status ++ ": " ++ (net req).bodyText) ↔
        (net req).ok = false) ∧
      ((net req).ok = true → (authFetch session path options net).2 = Except.ok (net req)) := by
  refine ⟨⟨API_BASE ++ path, options.method, options.body,
    buildHeaders session options.headers⟩, ?_, ?_, ?_⟩
  · rw [authFetch]
    split <;> rfl
  · rw [authFetch]
    cases hok : (net ⟨API_BASE ++ path, options.method, options.body,
        buildHeaders session options.headers⟩).ok with
    | false => simp [hok]
    | true => simp [hok]
  · intro hok
    rw [authFetch]
    simp [hok]

/-- Witness for C3 with a concrete failing response. -/
theorem authFetch_spec_witness :
    (authFetch (some ⟨"tok"⟩) "/boats" ⟨"GET", none, []⟩
        (fun _ => ⟨false, 500, "boom"⟩)).2 = Except.error "API 500: boom" := by
  obtain ⟨req, hreq, hiff, hok⟩ := authFetch_spec (some ⟨"tok"⟩) "/boats"
    ⟨"GET", none, []⟩ (fun _ => ⟨false, 500, "boom"⟩)
  exact hiff.mpr rfl

/-- C7: with no caller-supplied headers (as at every call site in
src/api/client.ts), the request authFetch sends carries
Content-Type: application/json, and carries an Authorization header equal
to Bearer followed by the access token exactly when a session with a
nonempty access token exists; without one, no Authorization header is
present. -/
theorem authFetch_headers (session : Option Session) (path : String)
    (options : RequestInit) (net : HttpRequest → HttpResponse)
    (hopts : options.headers = []) :
    ((authFetch session path options net).1.map
        (fun r => lookupHeader r.headers "Content-Type")) = [some "application/json"] ∧
    ((authFetch session path options net).1.map
        (fun r => lookupHeader r.headers "Authorization")) =
      [match session with
       | some s => if s.access_token ≠ "" then some ("Bearer " ++ s.access_token) else none
       | none => none] := by
  have hfirst : (authFetch session path options net).1 =
      [⟨API_BASE ++ path, options.method, options.body,
        buildHeaders session options.headers⟩] := by
    rw [authFetch]
    split <;> rfl
  rw [hfirst, hopts]
  cases session with
  | none =>
    constructor <;> simp [buildHeaders, lookupHeader, List.find?]
  | some s =>
    by_cases htok : s.access_token = ""
    · constructor <;>
        simp [buildHeaders, setHeader, lookupHeader, List.find?, htok]
    · constructor <;>
        simp [buildHeaders, setHeader, lookupHeader, List.find?, htok]

/-- Witness for C7 with a concrete session and a headerless GET. -/
theorem authFetch_headers_witness :
    ((authFetch (some ⟨"tok"⟩) "/boats" ⟨"GET", none, []⟩ (fun _ => ⟨true, 200, ""⟩)).1.map
        (fun r => lookupHeader r.headers "Authorization")) = [some "Bearer tok"] := by
  have h := authFetch_headers (some ⟨"tok"⟩) "/boats" ⟨"GET", none, []⟩
    (fun _ => ⟨true, 200, ""⟩) rfl
  simpa using h.2

end BoatRide
